import Mathlib

set_option maxRecDepth 100000

/-!
# Verification of the forecasting engine (`app/algorithms.py`)

Shallow embedding of the deterministic forecasting core of the repository:
the smoothing kernel, the three forecast algorithms (18m+, 6-18m, 0-6m),
the shared lead-time / DOI engine and the orchestrator
`generate_full_forecast`, translated from `src/app/algorithms.py`.

Modelling conventions:
* Python floats are modelled as exact rationals (`ℚ`); float literals such as
  `0.85`, `0.97`, `0.05` become the rationals `17/20`, `97/100`, `1/20`.
* `datetime.date` values are modelled as proleptic-Gregorian ordinals
  (`ℤ`, days; ordinal 1 = 0001-01-01, a Monday), exactly as CPython's
  `date.toordinal()`.  `date + timedelta(days=x)` for fractional `x`
  truncates to whole days (`date.__add__` only reads `timedelta.days`),
  modelled with `Int.floor`.  `date.isocalendar()[1]` is reimplemented as
  `isocalendarWeek` following CPython's algorithm.
* Python's built-in `round` is banker's rounding, modelled by
  `roundHalfEven`.
* Python dicts used as records (`settings`, `inventory`, algorithm results)
  become structures whose possibly-absent keys are `Option` fields;
  `d.get(k, v)` becomes `field.getD v`, and `d[k]` on a possibly-missing
  key becomes `Option.bind` (a `none` result models a raised `KeyError`).
  Dict lookups keyed by week/date keep the "last write wins" semantics via
  `List.reverse.find?`.
* The 0-6m algorithm applies a float power `ratio ** 0.65`; real
  exponentiation is not rational-closed, so every definition that needs it
  is parametrised by an arbitrary function `rpow : ℚ → ℚ → ℚ` standing for
  the float power; all theorems hold for every such function.
* The single mutation performed by `generate_full_forecast`
  (`settings['total_inventory'] = ...`, `settings['fba_available'] = ...`)
  is modelled by returning the post-call settings dict alongside the
  result; the `now : ℤ` argument models the value of `datetime.now()`
  read when building the `generated_at` output field.
-/

/-- A row of the weekly units-sold series: `{week_end: date, units}`
(`d.get('units', 0) or 0` coerces missing/None units to 0, so the field is
total). -/
structure UnitsRow where
  week_end : ℤ
  units : ℚ
deriving DecidableEq

/-- A row of the seasonality table (`week_of_year`, `search_volume`,
`seasonality_index`). -/
structure SeasonRow where
  week_of_year : ℤ
  search_volume : ℚ
  seasonality_index : ℚ
deriving DecidableEq

/-- A promotional (vine) claim record. -/
structure VineRow where
  claim_date : ℤ
  units_claimed : ℚ
deriving DecidableEq

/-- The settings dict.  Every key may be absent (`none`); readers use
`.get` with the documented defaults.  `total_inventory` / `fba_available`
are inserted into this dict by `generate_full_forecast`. -/
structure SettingsD where
  amazon_doi_goal : Option ℤ
  inbound_lead_time : Option ℤ
  manufacture_lead_time : Option ℤ
  market_adjustment : Option ℚ
  sales_velocity_adjustment : Option ℚ
  velocity_weight : Option ℚ
  total_inventory : Option ℤ
  fba_available : Option ℤ
deriving DecidableEq

/-- `DEFAULT_SETTINGS` from the source (module-level constant). -/
def DEFAULT_SETTINGS : SettingsD :=
  { amazon_doi_goal := some 93
    inbound_lead_time := some 30
    manufacture_lead_time := some 7
    market_adjustment := some (1/20)
    sales_velocity_adjustment := some (1/10)
    velocity_weight := some (3/20)
    total_inventory := none
    fba_available := none }

/-- The inventory dict passed to the orchestrator. -/
structure InventoryD where
  total_inventory : Option ℤ
  fba_available : Option ℤ
deriving DecidableEq

/-- One output forecast point (`week_end`, `forecast`, `units_needed`). -/
structure ForecastPoint where
  week_end : ℤ
  forecast : ℚ
  units_needed : ℚ
deriving DecidableEq

/-- Python's built-in `round` (round half to even) on a rational. -/
def roundHalfEven (q : ℚ) : ℤ :=
  let f := q - ⌊q⌋
  if f < 1/2 then ⌊q⌋
  else if 1/2 < f then ⌊q⌋ + 1
  else if 2 ∣ ⌊q⌋ then ⌊q⌋ else ⌊q⌋ + 1

/-- The value `values[idx]` seen by `weighted_average`'s loop: `none` when
`idx` is out of bounds or the stored value is `None`. -/
def windowValue (values : List (Option ℚ)) (idx : ℤ) : Option ℚ :=
  if 0 ≤ idx ∧ idx < (values.length : ℤ) then values.getD idx.toNat none
  else none

/-- The `(weighted_sum, weight_sum)` contribution of weight position `i`
in `weighted_average`: the position targets index
`center_idx - len(weights)//2 + i` and contributes
`(value*weight, weight)` only when that value is present and strictly
positive. -/
def waContrib (values : List (Option ℚ)) (weights : List ℤ)
    (center_idx : ℤ) (i : ℕ) : ℚ × ℚ :=
  match windowValue values (center_idx - (weights.length : ℤ) / 2 + i) with
  | some v =>
      if 0 < v then
        (v * ((weights.getD i 0 : ℤ) : ℚ), ((weights.getD i 0 : ℤ) : ℚ))
      else (0, 0)
  | none => (0, 0)

/-- `weighted_average(values, weights, center_idx)` from the source: aligns
the centre of `weights` with `center_idx`; a position contributes only when
its target index is in bounds and the value there is present (not `None`)
and strictly positive; both the weighted sum and the divisor accumulate
only over contributing positions; returns 0 when the divisor is 0. -/
def weighted_average (values : List (Option ℚ)) (weights : List ℤ)
    (center_idx : ℤ) : ℚ :=
  let weighted_sum :=
    ∑ i ∈ Finset.range weights.length, (waContrib values weights center_idx i).1
  let weight_sum :=
    ∑ i ∈ Finset.range weights.length, (waContrib values weights center_idx i).2
  if 0 < weight_sum then weighted_sum / weight_sum else 0

/-- `calculate_units_to_make`: `int(round(max(0, sum(AC) - inventory)))`. -/
def calculate_units_to_make (weekly_units_needed : List ℚ)
    (total_inventory : ℤ) : ℤ :=
  let total_needed := weekly_units_needed.sum
  let units_to_make := max 0 (total_needed - (total_inventory : ℚ))
  roundHalfEven units_to_make

/-- `calculate_weekly_units_needed`: the overlap of each week's 7-day span
`[week_end-7, week_end]` with the lead-time window
`[today, today+lead_time_days]`, as a fraction of 7, times the forecast.
(`if not week_end or not forecast` skips weeks with forecast `0`; dates
are always valid in the model.) -/
def calculate_weekly_units_needed (forecasts : List ℚ) (week_dates : List ℤ)
    (today : ℤ) (lead_time_days : ℤ) : List ℚ :=
  let lead_time_end := today + lead_time_days
  (forecasts.zip week_dates).map (fun p =>
    let forecast := p.1
    let week_end := p.2
    if forecast = 0 then 0
    else
      let week_start := week_end - 7
      let period_start := max today week_start
      let period_end := min lead_time_end week_end
      let overlap_days := period_end - period_start
      if 0 < overlap_days then forecast * (overlap_days : ℚ) / 7 else 0)

/-- Result of `calculate_doi`. -/
structure DoiResult where
  doi_days : ℤ
  runout_date : Option ℤ
deriving DecidableEq

/-- The iterative inventory-drawdown loop inside `calculate_doi`: skip
weeks before `today` or with non-positive forecast; otherwise draw the
week's forecast from inventory and, on the first week where the remaining
inventory reaches `≤ 0`, return
`week_start + floor(7 * clamp(inventory_at_start/forecast, 0, 1))`
(the `floor` models `date + timedelta(days=fraction*7)` truncating to
whole days). -/
def doiRunoutLoop (pairs : List (ℚ × ℤ)) (inventory : ℤ) (today : ℤ)
    (cumulative : ℚ) : Option ℤ :=
  match pairs with
  | [] => none
  | (forecast, week_end) :: rest =>
    if week_end < today then doiRunoutLoop rest inventory today cumulative
    else if forecast ≤ 0 then doiRunoutLoop rest inventory today cumulative
    else
      let week_start := week_end - 7
      let inventory_at_start := (inventory : ℚ) - cumulative
      let cumulative' := cumulative + forecast
      let inventory_remaining := (inventory : ℚ) - cumulative'
      if inventory_remaining ≤ 0 then
        let fraction := inventory_at_start / forecast
        let fraction := max 0 (min 1 fraction)
        some (week_start + ⌊fraction * 7⌋)
      else doiRunoutLoop rest inventory today cumulative'

/-- `calculate_doi`: early return `⟨0, none⟩` on an empty forecasts or
dates list; otherwise run the drawdown loop, and if it finds no runout
fall back to `today + floor(7 * inventory/avg_weekly)` where `avg_weekly`
is `sum(f > 0) / max(1, count(f > 0))`, or `today + 365` when that average
is not positive.  `doi_days = max(0, runout - today)`. -/
def calculate_doi (forecasts : List ℚ) (week_dates : List ℤ)
    (inventory : ℤ) (today : ℤ) : DoiResult :=
  if forecasts = [] ∨ week_dates = [] then ⟨0, none⟩
  else
    let runout0 := doiRunoutLoop (forecasts.zip week_dates) inventory today 0
    let runout : ℤ :=
      match runout0 with
      | some r => r
      | none =>
        let positives := forecasts.filter (fun f => 0 < f)
        let avg_weekly : ℚ := positives.sum / (max 1 positives.length : ℕ)
        if 0 < avg_weekly then today + ⌊7 * ((inventory : ℚ) / avg_weekly)⌋
        else today + 365
    let doi_days := runout - today
    ⟨max 0 doi_days, some runout⟩

-- Sanity checks on the DOI engine at small inputs.
example : calculate_doi [] [] 0 0 = ⟨0, none⟩ := by with_unfolding_all decide
example : (calculate_doi [(10 : ℚ)] [(7 : ℤ)] 5 0).runout_date = some 3 := by
  with_unfolding_all decide
example : (calculate_doi [(1 : ℚ), 1] [(7 : ℤ), 700] 2 0).doi_days = 700 := by
  with_unfolding_all decide
example : (calculate_doi [(1 : ℚ), 1] [(7 : ℤ), 700] 3 0).doi_days = 21 := by
  with_unfolding_all decide
example : calculate_units_to_make [(3 : ℚ), 4] 5 = 2 := by
  with_unfolding_all decide
example : calculate_units_to_make [(1 : ℚ)/2] 0 = 0 := by
  with_unfolding_all decide
example : calculate_units_to_make [(3 : ℚ)/2] 0 = 2 := by
  with_unfolding_all decide
example : calculate_units_to_make [(5 : ℚ)/2] 0 = 2 := by
  with_unfolding_all decide
example : weighted_average [some 0, some 5, some 0] [1, 3, 1] 1 = 5 := by
  with_unfolding_all decide
example : weighted_average [some 2, some 4] [1, 3, 1] 0 = 5/2 := by
  with_unfolding_all decide

/-! ## ISO calendar (CPython `date.isocalendar`)

Dates are proleptic-Gregorian ordinals (`date.toordinal()`), ordinal 1 =
0001-01-01, a Monday.  The functions below follow CPython's
`_days_before_year`, `_ord2ymd` (year part only) and `_isoweek1monday`. -/

/-- `_days_before_year`: days before January 1st of `year`. -/
def daysBeforeYear (year : ℤ) : ℤ :=
  let y := year - 1
  y * 365 + y.fdiv 4 - y.fdiv 100 + y.fdiv 400

/-- The Gregorian year containing ordinal `o` (the year component of
CPython's `_ord2ymd`). -/
def yearFromOrdinal (o : ℤ) : ℤ :=
  let n : ℕ := (o - 1).toNat
  let n400 := n / 146097
  let r400 := n % 146097
  let n100 := r400 / 36524
  let r100 := r400 % 36524
  let n4 := r100 / 1461
  let r4 := r100 % 1461
  let n1 := r4 / 365
  let year : ℤ := 400 * n400 + 100 * n100 + 4 * n4 + n1 + 1
  if n1 = 4 ∨ n100 = 4 then year - 1 else year

/-- `_isoweek1monday`: ordinal of the Monday starting ISO week 1 of `year`. -/
def isoWeek1Monday (year : ℤ) : ℤ :=
  let firstday := daysBeforeYear year + 1
  let firstweekday := (firstday + 6) % 7
  let week1monday := firstday - firstweekday
  if 3 < firstweekday then week1monday + 7 else week1monday

/-- `date.isocalendar()[1]`: the ISO week number (1..53) of ordinal `o`. -/
def isocalendarWeek (o : ℤ) : ℤ :=
  let year := yearFromOrdinal o
  let week := (o - isoWeek1Monday year).fdiv 7
  if week < 0 then (o - isoWeek1Monday (year - 1)).fdiv 7 + 1
  else if 52 ≤ week ∧ isoWeek1Monday (year + 1) ≤ o then 1
  else week + 1

-- 2024-01-01 (ordinal 738886) is ISO week 1; 2023-01-01 (738521) is ISO
-- week 52 of 2022; 2021-01-01 (737791) is ISO week 53 of 2020.
example : isocalendarWeek 738886 = 1 := by with_unfolding_all decide
example : isocalendarWeek 738521 = 52 := by with_unfolding_all decide
example : isocalendarWeek 737791 = 53 := by with_unfolding_all decide

/-! ## 18-month-plus algorithm -/

/-- Lookup in a date-keyed dict built by inserting `pairs` in order
("last write wins", as for a Python dict). -/
def dictLookup (pairs : List (ℤ × ℚ)) (k : ℤ) : Option ℚ :=
  (pairs.reverse.find? (fun p => decide (p.1 = k))).map (·.2)

/-- Column G chain of `calculate_units_final_curve`: peak envelope
(`max` over the slice `[i-2, i+2)`), offset (average with next), smooth
envelope (3-point average), final curve (`max` of the three). -/
def calculate_units_final_curve (units_data : List UnitsRow) : List ℚ :=
  if units_data.length = 0 then []
  else
    let n := units_data.length
    let units := units_data.map (·.units)
    let peak_env := (List.range n).map (fun i =>
      let window := (units.drop (i - 2)).take (min n (i + 2) - (i - 2))
      match window.max? with
      | some m => m
      | none => units.getD i 0)
    let peak_env_offset := (List.range n).map (fun i =>
      if i < n - 1 then (peak_env.getD i 0 + peak_env.getD (i + 1) 0) / 2
      else peak_env.getD i 0)
    let smooth_env := (List.range n).map (fun i =>
      let window := (peak_env_offset.drop (i - 1)).take (min n (i + 2) - (i - 1))
      if window = [] then peak_env_offset.getD i 0
      else window.sum / (window.length : ℚ))
    (List.range n).map (fun i =>
      max (units.getD i 0) (max (peak_env_offset.getD i 0) (smooth_env.getD i 0)))

/-- Column H: weighted average with weights `[1,2,4,7,11,13,11,7,4,2,1]`. -/
def calculate_units_final_smooth (units_final_curve : List ℚ) : List ℚ :=
  let weights : List ℤ := [1, 2, 4, 7, 11, 13, 11, 7, 4, 2, 1]
  (List.range units_final_curve.length).map (fun i =>
    weighted_average (units_final_curve.map some) weights i)

/-- Column I: `[v * 0.85 if v else 0 for v in units_final_smooth]`. -/
def calculate_units_final_smooth_85 (units_final_smooth : List ℚ) : List ℚ :=
  units_final_smooth.map (fun v => if v ≠ 0 then v * (17/20) else 0)

/-- The date-extension loop shared by the 18m+ algorithm (lines 519-526):
append `last_date + 7*i` for `i = 1..count` when not already present. -/
def extend_dates (week_dates : List ℤ) (today : ℤ) (count : ℕ) : List ℤ :=
  let last_date := week_dates.getLastD today
  (List.range' 1 count).foldl (fun (acc : List ℤ) (i : ℕ) =>
    let future_date := last_date + 7 * (i : ℤ)
    if future_date ∈ acc then acc else acc ++ [future_date]) week_dates

/-- The `forecasts` output list shared by all three algorithms: zip dates,
forecast values and weekly units needed, keep weeks with
`week_end ≥ today`, truncate to the first 52. -/
def forecastsOut (today : ℤ) (dates : List ℤ) (forecasts weekly : List ℚ) :
    List ForecastPoint :=
  (((dates.zip (forecasts.zip weekly)).filter (fun p => decide (today ≤ p.1))).map
    (fun p => ⟨p.1, p.2.1, p.2.2⟩)).take 52

/-- The dict returned by each algorithm.  Keys that are present only on
the non-degenerate path (the early return for empty input omits them) are
`Option` fields; `runout_date_*` values are themselves optional dates. -/
structure AlgoResult where
  units_to_make : ℤ
  doi_total_days : ℤ
  doi_fba_days : ℤ
  runout_date_total : Option (Option ℤ)
  runout_date_fba : Option (Option ℤ)
  lead_time_days : Option ℤ
  total_units_needed : Option ℚ
  F_constant : Option ℚ
  F_peak : Option ℚ
  last_seasonality : Option ℚ
  elasticity : Option ℚ
  forecasts : List ForecastPoint
  settings : SettingsD
deriving DecidableEq

/-- The early-return dict `{'units_to_make': 0, 'doi_total_days': 0,
'doi_fba_days': 0, 'forecasts': [], 'settings': settings}` shared by the
three algorithms for empty input (note the missing keys). -/
def emptyAlgoResult (settings : SettingsD) : AlgoResult :=
  { units_to_make := 0, doi_total_days := 0, doi_fba_days := 0
    runout_date_total := none, runout_date_fba := none
    lead_time_days := none, total_units_needed := none
    F_constant := none, F_peak := none, last_seasonality := none
    elasticity := none, forecasts := [], settings := settings }

/-- `calculate_forecast_18m_plus` (today and settings are always supplied
in this model; the source defaults `today = date.today()` and
`settings = DEFAULT_SETTINGS.copy()` when omitted). -/
def calculate_forecast_18m_plus (units_data : List UnitsRow) (today : ℤ)
    (settings : SettingsD) : AlgoResult :=
  if units_data = [] then emptyAlgoResult settings
  else
    let week_dates := units_data.map (·.week_end)
    let final_curve := calculate_units_final_curve units_data
    let final_smooth := calculate_units_final_smooth final_curve
    let final_smooth_85 := calculate_units_final_smooth_85 final_smooth
    let i_value_pairs := week_dates.zip final_smooth_85
    let extended_dates := extend_dates week_dates today 104
    let extended_j := extended_dates.map (fun week_end =>
      (dictLookup i_value_pairs (week_end - 364)).getD 0)
    let extended_k := (List.range extended_j.length).map (fun i =>
      if i < 2 then extended_j.getD i 0
      else max (extended_j.getD (i - 2) 0) (extended_j.getD (i - 1) 0))
    let weights_L : List ℤ := [1, 3, 5, 7, 5, 3, 1]
    let extended_L := (List.range extended_k.length).map (fun i =>
      weighted_average (extended_k.map some) weights_L i)
    let adjustment := 1 + settings.market_adjustment.getD (1/20) +
      settings.sales_velocity_adjustment.getD (1/10) *
        settings.velocity_weight.getD (3/20)
    let extended_O := (List.range extended_dates.length).map (fun i =>
      if today ≤ extended_dates.getD i 0 then extended_L.getD i 0 * adjustment
      else 0)
    let extended_P := (List.range extended_O.length).map (fun i =>
      match extended_dates.get? i with
      | some week_end =>
          if today ≤ week_end ∧ week_end ≤ today + 365 then
            let current_O := extended_O.getD i 0
            let next_O := if i + 1 < extended_O.length then extended_O.getD (i + 1) 0
                          else current_O
            (current_O + next_O) / 2
          else 0
      | none => 0)
    let lead_time_days := settings.amazon_doi_goal.getD 93 +
      settings.inbound_lead_time.getD 30 + settings.manufacture_lead_time.getD 7
    let weekly_needed :=
      calculate_weekly_units_needed extended_P extended_dates today lead_time_days
    let total_inventory := settings.total_inventory.getD 0
    let fba_available := settings.fba_available.getD 0
    let units_to_make := calculate_units_to_make weekly_needed total_inventory
    let doi_total := calculate_doi extended_P extended_dates total_inventory today
    let doi_fba := calculate_doi extended_P extended_dates fba_available today
    { units_to_make := units_to_make
      doi_total_days := doi_total.doi_days
      doi_fba_days := doi_fba.doi_days
      runout_date_total := some doi_total.runout_date
      runout_date_fba := some doi_fba.runout_date
      lead_time_days := some lead_time_days
      total_units_needed := some weekly_needed.sum
      F_constant := none, F_peak := none, last_seasonality := none
      elasticity := none
      forecasts := forecastsOut today extended_dates extended_P weekly_needed
      settings := settings }

/-! ## 6-to-18-month algorithm -/

/-- The search-volume lookup built from `seasonality_data`: entries with a
zero week number are skipped (`if week_num:`), later entries overwrite
earlier ones, and values are `search_volume * 0.97`. -/
def sv_smooth_lookup (seasonality_data : List SeasonRow) (week_num : ℤ) :
    Option ℚ :=
  (((seasonality_data.filter (fun s => decide (s.week_of_year ≠ 0))).reverse.find?
    (fun s => decide (s.week_of_year = week_num))).map
      (fun s => s.search_volume * (97/100)))

/-- The seasonality-index lookup built from `seasonality_data` (same
skipping and overwrite rules). -/
def seasonality_idx_lookup (seasonality_data : List SeasonRow) (week_num : ℤ) :
    Option ℚ :=
  (((seasonality_data.filter (fun s => decide (s.week_of_year ≠ 0))).reverse.find?
    (fun s => decide (s.week_of_year = week_num))).map (·.seasonality_index))

/-- One iteration of the 6-18m future-extension loop (lines 743-754):
append the date and the forecast `D_val * H_val` when the date is new. -/
def ext_step_6_18m (seasonality_data : List SeasonRow) (F_constant : ℚ)
    (last_date : ℤ) (acc : List ℤ × List ℚ) (i : ℕ) : List ℤ × List ℚ :=
  let future_date := last_date + 7 * (i : ℤ)
  if future_date ∈ acc.1 then acc
  else
    let week_of_year := isocalendarWeek future_date
    let d_val := (sv_smooth_lookup seasonality_data week_of_year).getD 100
    let g_val := (seasonality_idx_lookup seasonality_data week_of_year).getD 1
    let h_val := F_constant * (1 + (1/4) * (g_val - 1))
    (acc.1 ++ [future_date], acc.2 ++ [d_val * h_val])

/-- `calculate_forecast_6_18m`. -/
def calculate_forecast_6_18m (units_data : List UnitsRow)
    (seasonality_data : List SeasonRow) (today : ℤ) (settings : SettingsD) :
    AlgoResult :=
  if units_data = [] then emptyAlgoResult settings
  else
    let week_dates := units_data.map (·.week_end)
    let units := units_data.map (·.units)
    let D_values := week_dates.map (fun week_end =>
      (sv_smooth_lookup seasonality_data (isocalendarWeek week_end)).getD 100)
    let E_values := (units.zip D_values).map (fun p =>
      if 0 < p.2 ∧ 0 < p.1 then p.1 / p.2 else 0)
    let non_zero_E := E_values.filter (fun e => decide (0 < e))
    let F_constant :=
      if non_zero_E = [] then (3/20 : ℚ)
      else
        let max_E := non_zero_E.max?.getD 0
        let max_idx := E_values.findIdx (fun e => decide (e = max_E))
        let window := ((E_values.drop (max_idx - 2)).take
          (min E_values.length (max_idx + 3) - (max_idx - 2))).filter
            (fun e => decide (0 < e))
        if window = [] then max_E else window.sum / (window.length : ℚ)
    let G_values := week_dates.map (fun week_end =>
      (seasonality_idx_lookup seasonality_data (isocalendarWeek week_end)).getD 1)
    let H_values := G_values.map (fun g => F_constant * (1 + (1/4) * (g - 1)))
    let I_values := (D_values.zip H_values).map (fun p => p.1 * p.2)
    let last_date := week_dates.getLastD today
    let ext := (List.range' 1 104).foldl
      (ext_step_6_18m seasonality_data F_constant last_date)
      (week_dates, I_values)
    let J_values := (ext.1.zip ext.2).map (fun p =>
      if today < p.1 then p.2 else 0)
    let lead_time_days := settings.amazon_doi_goal.getD 93 +
      settings.inbound_lead_time.getD 30 + settings.manufacture_lead_time.getD 7
    let weekly_needed :=
      calculate_weekly_units_needed J_values ext.1 today lead_time_days
    let total_inventory := settings.total_inventory.getD 0
    let fba_available := settings.fba_available.getD 0
    let units_to_make := calculate_units_to_make weekly_needed total_inventory
    let doi_total := calculate_doi J_values ext.1 total_inventory today
    let doi_fba := calculate_doi J_values ext.1 fba_available today
    { units_to_make := units_to_make
      doi_total_days := doi_total.doi_days
      doi_fba_days := doi_fba.doi_days
      runout_date_total := some doi_total.runout_date
      runout_date_fba := some doi_fba.runout_date
      lead_time_days := some lead_time_days
      total_units_needed := some weekly_needed.sum
      F_constant := some F_constant
      F_peak := none, last_seasonality := none, elasticity := none
      forecasts := forecastsOut today ext.1 J_values weekly_needed
      settings := settings }

/-! ## 0-to-6-month algorithm -/

/-- The aggregated vine-claim units for an ISO week-of-year
(`vine_lookup.get(week, 0)`). -/
def vine_week_total (vine_claims : List VineRow) (week_num : ℤ) : ℚ :=
  ((vine_claims.filter (fun c =>
    decide (isocalendarWeek c.claim_date = week_num))).map (·.units_claimed)).sum

/-- The per-week 0-6m forecast value
`max(0, F_peak * (G/current)^0.65)` (or `F_peak` when the current
seasonality is not positive).  `rpow` models the Python float power. -/
def forecast_value_0_6m (rpow : ℚ → ℚ → ℚ) (F_peak : ℚ)
    (last_historical_seasonality : ℚ) (g_seasonality : ℚ) : ℚ :=
  if 0 < last_historical_seasonality then
    max 0 (F_peak * rpow (g_seasonality / last_historical_seasonality) (13/20))
  else F_peak

/-- One iteration of the 0-6m future-extension loop (lines 930-943):
append the date when it is new and does not exceed `twelve_months_out`. -/
def ext_step_0_6m (rpow : ℚ → ℚ → ℚ) (seasonality_data : List SeasonRow)
    (F_peak last_historical_seasonality : ℚ) (twelve_months_out last_date : ℤ)
    (acc : List ℤ × List ℚ) (i : ℕ) : List ℤ × List ℚ :=
  let future_date := last_date + 7 * (i : ℤ)
  if future_date ∉ acc.1 ∧ future_date ≤ twelve_months_out then
    let week_of_year := isocalendarWeek future_date
    let g := (seasonality_idx_lookup seasonality_data week_of_year).getD 1
    (acc.1 ++ [future_date],
     acc.2 ++ [forecast_value_0_6m rpow F_peak last_historical_seasonality g])
  else acc

/-- `calculate_forecast_0_6m_exact`. -/
def calculate_forecast_0_6m_exact (rpow : ℚ → ℚ → ℚ)
    (units_data : List UnitsRow) (seasonality_data : List SeasonRow)
    (vine_claims : List VineRow) (today : ℤ) (settings : SettingsD) :
    AlgoResult :=
  if units_data = [] then emptyAlgoResult settings
  else
    let week_dates := units_data.map (·.week_end)
    let E_values := units_data.map (fun r =>
      max 0 (r.units - vine_week_total vine_claims (isocalendarWeek r.week_end)))
    let F_peak := E_values.max?.getD 0
    let last_historical_seasonality :=
      match week_dates.reverse.find? (fun e => decide (e < today)) with
      | some last_week =>
          (seasonality_idx_lookup seasonality_data
            (isocalendarWeek last_week)).getD 1
      | none => 1
    let twelve_months_out := today + 365
    let H_values := week_dates.map (fun week_end =>
      let g := (seasonality_idx_lookup seasonality_data
        (isocalendarWeek week_end)).getD 1
      if today ≤ week_end ∧ week_end ≤ twelve_months_out then
        forecast_value_0_6m rpow F_peak last_historical_seasonality g
      else 0)
    let last_date := week_dates.getLastD today
    let ext := (List.range' 1 59).foldl
      (ext_step_0_6m rpow seasonality_data F_peak last_historical_seasonality
        twelve_months_out last_date)
      (week_dates, H_values)
    let lead_time_days := settings.amazon_doi_goal.getD 93 +
      settings.inbound_lead_time.getD 30 + settings.manufacture_lead_time.getD 7
    let weekly_needed :=
      calculate_weekly_units_needed ext.2 ext.1 today lead_time_days
    let total_inventory := settings.total_inventory.getD 0
    let fba_available := settings.fba_available.getD 0
    let units_to_make := calculate_units_to_make weekly_needed total_inventory
    let doi_total := calculate_doi ext.2 ext.1 total_inventory today
    let doi_fba := calculate_doi ext.2 ext.1 fba_available today
    { units_to_make := units_to_make
      doi_total_days := doi_total.doi_days
      doi_fba_days := doi_fba.doi_days
      runout_date_total := some doi_total.runout_date
      runout_date_fba := some doi_fba.runout_date
      lead_time_days := some lead_time_days
      total_units_needed := some weekly_needed.sum
      F_constant := none
      F_peak := some F_peak
      last_seasonality := some last_historical_seasonality
      elasticity := some (13/20)
      forecasts := forecastsOut today ext.1 ext.2 weekly_needed
      settings := settings }

/-! ## Orchestrator `generate_full_forecast` -/

/-- The per-algorithm summary sub-dict built by the orchestrator (lines
1057-1083).  Building it reads the keys `runout_date_total`,
`runout_date_fba` and `total_units_needed` of the algorithm's result with
`[]`-access; a missing key (the empty-input early return) raises
`KeyError`, modelled by `none`. -/
structure AlgoSummary where
  name : String
  units_to_make : ℤ
  doi_total_days : ℤ
  doi_fba_days : ℤ
  runout_date_total : Option ℤ
  runout_date_fba : Option ℤ
  total_units_needed : ℚ
deriving DecidableEq

/-- Build an algorithm's summary sub-dict, `none` on a missing key. -/
def summaryOf (name : String) (r : AlgoResult) : Option AlgoSummary :=
  r.runout_date_total.bind fun rt =>
  r.runout_date_fba.bind fun rf =>
  r.total_units_needed.map fun tn =>
    { name := name, units_to_make := r.units_to_make
      doi_total_days := r.doi_total_days, doi_fba_days := r.doi_fba_days
      runout_date_total := rt, runout_date_fba := rf
      total_units_needed := tn }

/-- The echoed settings sub-dict of the orchestrator's output. -/
structure SettingsOut where
  amazon_doi_goal : ℤ
  inbound_lead_time : ℤ
  manufacture_lead_time : ℤ
  total_lead_time : ℤ
  market_adjustment : ℚ
  sales_velocity_adjustment : ℚ
  velocity_weight : ℚ
deriving DecidableEq

/-- The summary sub-dict of the orchestrator's output. -/
structure SummaryD where
  total_inventory : ℤ
  fba_available : ℤ
  primary_units_to_make : ℤ
  primary_doi_total : ℤ
  primary_doi_fba : ℤ
deriving DecidableEq

/-- The orchestrator's output dict.  `generated_at` holds the
`datetime.now()` value read while building the dict. -/
structure FullResult where
  product_asin : String
  generated_at : ℤ
  calculation_date : ℤ
  inventory : InventoryD
  active_algorithm : String
  settings_out : SettingsOut
  algo_0_6m : AlgoSummary
  algo_6_18m : AlgoSummary
  algo_18m : AlgoSummary
  forecasts_0_6m : List ForecastPoint
  forecasts_6_18m : List ForecastPoint
  forecasts_18m : List ForecastPoint
  summary : SummaryD
deriving DecidableEq

/-- `generate_full_forecast`.  The `now` argument models the value of
`datetime.now()` read at call time for the `generated_at` field.  The
function first stores the inventory values into the caller's `settings`
dict (`settings['total_inventory'] = ...`,
`settings['fba_available'] = ...`); the returned pair is
`(output-or-KeyError, the settings dict after the call)`; a `none` first
component models an uncaught `KeyError` (raised when a `primary[...]` or
`result[...]` access hits a key the empty-input early return omitted). -/
def generate_full_forecast (rpow : ℚ → ℚ → ℚ) (product_asin : String)
    (units_sold_data : List UnitsRow) (seasonality_data : List SeasonRow)
    (inventory : InventoryD) (settings : SettingsD) (today : ℤ)
    (algorithm : String) (vine_claims : List VineRow) (now : ℤ) :
    Option FullResult × SettingsD :=
  let settings :=
    { settings with
        total_inventory := some (inventory.total_inventory.getD 0)
        fba_available := some (inventory.fba_available.getD 0) }
  let result_18m := calculate_forecast_18m_plus units_sold_data today settings
  let result_6_18m :=
    calculate_forecast_6_18m units_sold_data seasonality_data today settings
  let result_0_6m :=
    calculate_forecast_0_6m_exact rpow units_sold_data seasonality_data
      vine_claims today settings
  let primary :=
    if algorithm = "0-6m" then result_0_6m
    else if algorithm = "6-18m" then result_6_18m
    else result_18m
  let full :=
    primary.lead_time_days.bind fun total_lead_time =>
    (summaryOf "0-6 Month Algorithm" result_0_6m).bind fun s_0_6m =>
    (summaryOf "6-18 Month Algorithm" result_6_18m).bind fun s_6_18m =>
    (summaryOf "18+ Month Algorithm" result_18m).map fun s_18m =>
      { product_asin := product_asin
        generated_at := now
        calculation_date := today
        inventory := inventory
        active_algorithm := algorithm
        settings_out :=
          { amazon_doi_goal := settings.amazon_doi_goal.getD 93
            inbound_lead_time := settings.inbound_lead_time.getD 30
            manufacture_lead_time := settings.manufacture_lead_time.getD 7
            total_lead_time := total_lead_time
            market_adjustment := settings.market_adjustment.getD (1/20)
            sales_velocity_adjustment :=
              settings.sales_velocity_adjustment.getD (1/10)
            velocity_weight := settings.velocity_weight.getD (3/20) }
        algo_0_6m := s_0_6m
        algo_6_18m := s_6_18m
        algo_18m := s_18m
        forecasts_0_6m := result_0_6m.forecasts
        forecasts_6_18m := result_6_18m.forecasts
        forecasts_18m := result_18m.forecasts
        summary :=
          { total_inventory := inventory.total_inventory.getD 0
            fba_available := inventory.fba_available.getD 0
            primary_units_to_make := primary.units_to_make
            primary_doi_total := primary.doi_total_days
            primary_doi_fba := primary.doi_fba_days } }
  (full, settings)

/-- The orchestrator's output with the `generated_at` timestamp field
erased (set to a fixed value). -/
def eraseGeneratedAt (r : FullResult) : FullResult :=
  { r with generated_at := 0 }

/-- The shape required of a `forecasts` output list: at most 52 entries,
chronologically ordered, future weeks (`week_end ≥ today`) only. -/
def forecastsOk (today : ℤ) (fps : List ForecastPoint) : Prop :=
  fps.length ≤ 52 ∧
  List.Pairwise (· < ·) (fps.map (·.week_end)) ∧
  ∀ p ∈ fps, today ≤ p.week_end

/-! ## Helper lemmas -/

lemma optMapBind {α β γ : Type} (x : Option α) (f : α → Option β)
    (g : β → γ) : (x.bind f).map g = x.bind (fun a => (f a).map g) := by
  cases x <;> rfl

lemma optBindCongr {α β : Type} (x : Option α) (f g : α → Option β)
    (h : ∀ a, f a = g a) : x.bind f = x.bind g := by
  cases x <;> simp [h]

lemma roundHalfEven_eq_floor_or_succ (q : ℚ) :
    roundHalfEven q = ⌊q⌋ ∨ roundHalfEven q = ⌊q⌋ + 1 := by
  unfold roundHalfEven
  dsimp only
  split
  · exact Or.inl rfl
  split
  · exact Or.inr rfl
  split
  · exact Or.inl rfl
  · exact Or.inr rfl

lemma floor_le_roundHalfEven (q : ℚ) : ⌊q⌋ ≤ roundHalfEven q := by
  rcases roundHalfEven_eq_floor_or_succ q with h | h <;> omega

lemma roundHalfEven_le_floor_succ (q : ℚ) : roundHalfEven q ≤ ⌊q⌋ + 1 := by
  rcases roundHalfEven_eq_floor_or_succ q with h | h <;> omega

lemma roundHalfEven_of_lt_half {q : ℚ} (h : q - ⌊q⌋ < 1/2) :
    roundHalfEven q = ⌊q⌋ := by
  unfold roundHalfEven
  dsimp only
  rw [if_pos h]

lemma roundHalfEven_of_half_lt {q : ℚ} (h : 1/2 < q - ⌊q⌋) :
    roundHalfEven q = ⌊q⌋ + 1 := by
  unfold roundHalfEven
  dsimp only
  rw [if_neg (by linarith), if_pos h]

lemma roundHalfEven_mono {a b : ℚ} (hab : a ≤ b) :
    roundHalfEven a ≤ roundHalfEven b := by
  rcases lt_or_le ⌊a⌋ ⌊b⌋ with h | h
  · have h1 := roundHalfEven_le_floor_succ a
    have h2 := floor_le_roundHalfEven b
    omega
  · have hfl : ⌊a⌋ = ⌊b⌋ := le_antisymm (Int.floor_le_floor hab) h
    have hfrac : a - ⌊a⌋ ≤ b - ⌊b⌋ := by
      rw [hfl]
      exact sub_le_sub_right hab _
    rcases lt_trichotomy (a - ⌊a⌋) (1/2) with h1 | h1 | h1
    · rw [roundHalfEven_of_lt_half h1]
      have := floor_le_roundHalfEven b
      omega
    · rcases lt_trichotomy (b - ⌊b⌋) (1/2) with h2 | h2 | h2
      · linarith
      · have hab' : a = b := by
          have : a - ⌊a⌋ = b - ⌊b⌋ := by rw [h1, h2]
          rw [hfl] at this
          linarith
        rw [hab']
      · rw [roundHalfEven_of_half_lt h2]
        have := roundHalfEven_le_floor_succ a
        omega
    · rw [roundHalfEven_of_half_lt h1, roundHalfEven_of_half_lt (by linarith : 1/2 < b - ⌊b⌋)]
      omega

lemma roundHalfEven_zero : roundHalfEven 0 = 0 := by
  with_unfolding_all decide

lemma roundHalfEven_max_zero (x : ℚ) :
    roundHalfEven (max 0 x) = max 0 (roundHalfEven x) := by
  rcases le_total 0 x with h | h
  · rw [max_eq_right h, max_eq_right]
    exact le_trans (Int.le_floor.mpr (by exact_mod_cast h)) (floor_le_roundHalfEven x)
  · rw [max_eq_left h, roundHalfEven_zero, max_eq_left]
    have h1 : ⌊x⌋ ≤ 0 := Int.floor_nonpos h
    rcases eq_or_lt_of_le h with he | hlt
    · rw [he, roundHalfEven_zero]
    · have h2 : ⌊x⌋ < 0 := Int.floor_lt.mpr (by exact_mod_cast hlt)
      have := roundHalfEven_le_floor_succ x
      omega

/-! ## C1: units_to_make formula -/

/-- **C1.** For every weekly units-needed sequence and every non-negative
`total_inventory`, `calculate_units_to_make` returns
`max(0, round(sum(unitsNeeded) - total_inventory))` with round-half-to-even
(the source computes `round(max(0, ...))`, which is equal), and
`units_to_make` is computed from `total_inventory` only: changing only the
`fba_available` entry of the settings never changes the `units_to_make`
of any of the three algorithms. -/
theorem c1_units_to_make_formula (w : List ℚ) (inv : ℤ) (_hinv : 0 ≤ inv) :
    calculate_units_to_make w inv = max 0 (roundHalfEven (w.sum - inv)) ∧
    (∀ (units_data : List UnitsRow) (sd : List SeasonRow)
       (vc : List VineRow) (rpow : ℚ → ℚ → ℚ) (today : ℤ) (s : SettingsD)
       (f₁ f₂ : Option ℤ),
      (calculate_forecast_18m_plus units_data today
          { s with fba_available := f₁ }).units_to_make =
        (calculate_forecast_18m_plus units_data today
          { s with fba_available := f₂ }).units_to_make ∧
      (calculate_forecast_6_18m units_data sd today
          { s with fba_available := f₁ }).units_to_make =
        (calculate_forecast_6_18m units_data sd today
          { s with fba_available := f₂ }).units_to_make ∧
      (calculate_forecast_0_6m_exact rpow units_data sd vc today
          { s with fba_available := f₁ }).units_to_make =
        (calculate_forecast_0_6m_exact rpow units_data sd vc today
          { s with fba_available := f₂ }).units_to_make) := by
  constructor
  · unfold calculate_units_to_make
    exact roundHalfEven_max_zero (w.sum - inv)
  · intro units_data sd vc rpow today s f₁ f₂
    refine ⟨?_, ?_, ?_⟩
    · by_cases hu : units_data = [] <;>
        simp [calculate_forecast_18m_plus, hu, emptyAlgoResult]
    · by_cases hu : units_data = [] <;>
        simp [calculate_forecast_6_18m, hu, emptyAlgoResult]
    · by_cases hu : units_data = [] <;>
        simp [calculate_forecast_0_6m_exact, hu, emptyAlgoResult]

/-- Witness for C1 at a concrete input. -/
theorem c1_units_to_make_formula_witness :
    (0 : ℤ) ≤ 5 ∧
    calculate_units_to_make [(3 : ℚ), 4] 5 =
      max 0 (roundHalfEven (([(3 : ℚ), 4]).sum - 5)) :=
  ⟨by decide, (c1_units_to_make_formula [(3 : ℚ), 4] 5 (by decide)).1⟩

/-! ## C8: weighted-average boundary -/

/-- **C8.** If the value aligned with the centre weight is present and
strictly positive while every other in-window value is `0` or absent, the
weighted average returns exactly the centre value (the divisor reduces to
the centre weight, assumed positive); and when no in-window value is
strictly positive it returns `0`. -/
theorem c8_weighted_average_center (values : List (Option ℚ))
    (weights : List ℤ) (center_idx : ℤ) :
    (∀ v : ℚ,
      0 < weights.getD (weights.length / 2) 0 →
      windowValue values center_idx = some v →
      0 < v →
      (∀ i : ℕ, i < weights.length → i ≠ weights.length / 2 →
        windowValue values (center_idx - (weights.length : ℤ) / 2 + i) = none ∨
        windowValue values (center_idx - (weights.length : ℤ) / 2 + i) = some 0) →
      weighted_average values weights center_idx = v) ∧
    ((∀ (i : ℕ) (v : ℚ), i < weights.length →
        windowValue values (center_idx - (weights.length : ℤ) / 2 + i) = some v →
        v ≤ 0) →
      weighted_average values weights center_idx = 0) := by
  constructor
  · intro v hw hcv hv hothers
    have hhalf : weights.length / 2 < weights.length := by
      rcases Nat.eq_zero_or_pos weights.length with h0 | hpos
      · have hnil : weights = [] := List.length_eq_zero.mp h0
        rw [hnil] at hw
        simp [List.getD] at hw
      · exact Nat.div_lt_self hpos (by omega)
    have hcast : ((weights.length / 2 : ℕ) : ℤ) = (weights.length : ℤ) / 2 := by
      omega
    have hcenter :
        center_idx - (weights.length : ℤ) / 2 + ((weights.length / 2 : ℕ) : ℤ) =
          center_idx := by omega
    have hcontrib_center :
        waContrib values weights center_idx (weights.length / 2) =
          (v * ((weights.getD (weights.length / 2) 0 : ℤ) : ℚ),
           ((weights.getD (weights.length / 2) 0 : ℤ) : ℚ)) := by
      unfold waContrib
      rw [hcenter, hcv]
      simp [hv]
    have hcontrib_other : ∀ i ∈ Finset.range weights.length,
        i ≠ weights.length / 2 → waContrib values weights center_idx i = (0, 0) := by
      intro i hi hne
      rw [Finset.mem_range] at hi
      rcases hothers i hi hne with h | h
      · unfold waContrib
        rw [h]
      · unfold waContrib
        rw [h]
        norm_num
    have hsum1 :
        (∑ i ∈ Finset.range weights.length,
            (waContrib values weights center_idx i).1) =
          v * ((weights.getD (weights.length / 2) 0 : ℤ) : ℚ) := by
      rw [Finset.sum_eq_single (weights.length / 2)]
      · rw [hcontrib_center]
      · intro i hi hne
        rw [hcontrib_other i hi hne]
      · intro habs
        exact absurd (Finset.mem_range.mpr hhalf) habs
    have hsum2 :
        (∑ i ∈ Finset.range weights.length,
            (waContrib values weights center_idx i).2) =
          ((weights.getD (weights.length / 2) 0 : ℤ) : ℚ) := by
      rw [Finset.sum_eq_single (weights.length / 2)]
      · rw [hcontrib_center]
      · intro i hi hne
        rw [hcontrib_other i hi hne]
      · intro habs
        exact absurd (Finset.mem_range.mpr hhalf) habs
    have hwq : (0 : ℚ) < ((weights.getD (weights.length / 2) 0 : ℤ) : ℚ) := by
      exact_mod_cast hw
    unfold weighted_average
    dsimp only
    rw [hsum1, hsum2, if_pos hwq]
    rw [mul_div_assoc, div_self (ne_of_gt hwq), mul_one]
  · intro hnone
    have hzero : ∀ i ∈ Finset.range weights.length,
        waContrib values weights center_idx i = (0, 0) := by
      intro i hi
      rw [Finset.mem_range] at hi
      unfold waContrib
      cases hwv : windowValue values (center_idx - (weights.length : ℤ) / 2 + i) with
      | none => rfl
      | some v =>
          have hv' := hnone i v hi hwv
          dsimp only
          rw [if_neg (not_lt.mpr hv')]
    unfold weighted_average
    dsimp only
    have hsum2 :
        (∑ i ∈ Finset.range weights.length,
            (waContrib values weights center_idx i).2) = 0 := by
      apply Finset.sum_eq_zero
      intro i hi
      rw [hzero i hi]
    rw [hsum2, if_neg (by norm_num)]

/-- Witness for C8: series `[0, 5, 0]`, weights `[1, 3, 1]`, centre 1
returns the centre value 5; on `[0, -2, none]` nothing is positive and the
result is 0. -/
theorem c8_weighted_average_center_witness :
    weighted_average [some 0, some 5, some 0] [1, 3, 1] 1 = 5 ∧
    weighted_average [some 0, some (-2), none] [1, 3, 1] 1 = 0 := by
  constructor
  · exact (c8_weighted_average_center [some 0, some 5, some 0] [1, 3, 1] 1).1
      5 (by decide) (by with_unfolding_all decide) (by with_unfolding_all decide)
      (by with_unfolding_all decide)
  · exact (c8_weighted_average_center [some 0, some (-2), none] [1, 3, 1] 1).2
      (by
        intro i v hi hwv
        simp only [List.length_cons, List.length_nil] at hi
        interval_cases i
        · simp_all [windowValue, List.getD]
        · simp_all [windowValue, List.getD]
          rw [← hwv]
          norm_num
        · simp_all [windowValue, List.getD])

/-! ## C3: DOI fallback semantics -/

/-- **C3 counterexample.** On the empty input the drawdown loop finds no
runout and no strictly-positive forecast value exists, so the claim's
fallback requires `runout_date = today + 365`; the code instead
short-circuits to `runout_date = None` and `doi_days = 0`
(input: `forecasts = []`, `week_dates = []`, `inventory = 0`,
`today = 0`). -/
theorem c3_doi_empty_counterexample :
    doiRunoutLoop (List.zip ([] : List ℚ) ([] : List ℤ)) 0 0 0 = none ∧
    (calculate_doi [] [] 0 0).runout_date ≠ some ((0 : ℤ) + 365) ∧
    (calculate_doi [] [] 0 0).doi_days = 0 := by
  with_unfolding_all decide

/-- **C3 (amended).** `calculate_doi` never raises: on an empty forecasts
or dates list it returns `doi_days = 0`, `runout_date = None` (not the
`today + 365` fallback); on non-empty input, when the drawdown loop finds
no runout the runout date is `today + floor(7 * inventory/avgWeekly)` with
`avgWeekly` the mean of the strictly-positive forecast values (the
fractional-week offset is truncated to whole days exactly as Python's
`date + timedelta` does), or `today + 365` when no strictly-positive
forecast value exists, and `doi_days = max(0, runout - today)`. -/
theorem c3_doi_fallback_amended (forecasts : List ℚ) (week_dates : List ℤ)
    (inventory today : ℤ) :
    (forecasts = [] ∨ week_dates = [] →
      calculate_doi forecasts week_dates inventory today = ⟨0, none⟩) ∧
    (forecasts ≠ [] → week_dates ≠ [] →
      doiRunoutLoop (forecasts.zip week_dates) inventory today 0 = none →
      ∃ runout : ℤ,
        (calculate_doi forecasts week_dates inventory today).runout_date =
          some runout ∧
        (calculate_doi forecasts week_dates inventory today).doi_days =
          max 0 (runout - today) ∧
        (forecasts.filter (fun f => 0 < f) = [] → runout = today + 365) ∧
        (forecasts.filter (fun f => 0 < f) ≠ [] →
          runout = today + ⌊7 * ((inventory : ℚ) /
            ((forecasts.filter (fun f => 0 < f)).sum /
              ((forecasts.filter (fun f => 0 < f)).length : ℚ)))⌋)) := by
  constructor
  · intro h
    unfold calculate_doi
    rw [if_pos h]
  · intro hf hd hloop
    have hcond : ¬(forecasts = [] ∨ week_dates = []) := by
      rintro (h | h) <;> [exact hf h; exact hd h]
    unfold calculate_doi
    rw [if_neg hcond]
    dsimp only
    rw [hloop]
    by_cases hp : forecasts.filter (fun f => 0 < f) = []
    · have havg : ((forecasts.filter (fun f => 0 < f)).sum /
          ((max 1 (forecasts.filter (fun f => 0 < f)).length : ℕ) : ℚ)) = 0 := by
        rw [hp]
        simp
      rw [havg]
      refine ⟨today + 365, ?_, ?_, fun _ => rfl, fun h => absurd hp h⟩
      · simp
      · simp
    · have hlen : 0 < (forecasts.filter (fun f => 0 < f)).length :=
        List.length_pos.mpr hp
      have hmax : max 1 (forecasts.filter (fun f => 0 < f)).length =
          (forecasts.filter (fun f => 0 < f)).length := by omega
      have hsum : 0 < (forecasts.filter (fun f => 0 < f)).sum := by
        apply List.sum_pos
        · intro x hx
          have := List.of_mem_filter hx
          exact of_decide_eq_true this
        · exact hp
      have havg : 0 < ((forecasts.filter (fun f => 0 < f)).sum /
          ((max 1 (forecasts.filter (fun f => 0 < f)).length : ℕ) : ℚ)) := by
        apply div_pos hsum
        rw [hmax]
        exact_mod_cast hlen
      rw [if_pos havg]
      refine ⟨_, rfl, rfl, fun h => absurd h (by simp [hp]), fun _ => ?_⟩
      rw [hmax]

/-- Witness for C3 (amended): the empty clause at `([], [5], 3, 2)` and the
no-runout fallback clause at `([0], [10], 0, 0)` (the loop skips the
zero-forecast week, no positive value exists, so `runout = 365`). -/
theorem c3_doi_fallback_amended_witness :
    calculate_doi [] [(5 : ℤ)] 3 2 = ⟨0, none⟩ ∧
    (∃ runout : ℤ,
      (calculate_doi [(0 : ℚ)] [(10 : ℤ)] 0 0).runout_date = some runout ∧
      (calculate_doi [(0 : ℚ)] [(10 : ℤ)] 0 0).doi_days = max 0 (runout - 0) ∧
      ([(0 : ℚ)].filter (fun f => 0 < f) = [] → runout = 0 + 365) ∧
      ([(0 : ℚ)].filter (fun f => 0 < f) ≠ [] →
        runout = 0 + ⌊7 * ((0 : ℚ) /
          (([(0 : ℚ)].filter (fun f => 0 < f)).sum /
            (([(0 : ℚ)].filter (fun f => 0 < f)).length : ℚ)))⌋)) :=
  ⟨(c3_doi_fallback_amended [] [(5 : ℤ)] 3 2).1 (Or.inl rfl),
   (c3_doi_fallback_amended [(0 : ℚ)] [(10 : ℤ)] 0 0).2
     (by with_unfolding_all decide) (by decide)
     (by with_unfolding_all decide)⟩

/-! ## C4: empty-input behaviour -/

/-- **C4 (code behaviour at the failing input).** On an empty units series
each of the three algorithm functions returns its documented fallback dict
(`units_to_make = 0`, DOI fields `0`, empty forecasts) — but that dict
omits the keys `lead_time_days`, `runout_date_total`, `runout_date_fba`
and `total_units_needed`, so the orchestrator `generate_full_forecast`,
which reads `primary['lead_time_days']` and the `runout_date_*` /
`total_units_needed` keys of each result, hits a `KeyError` (modelled by
the `none` first component) instead of returning a fallback result. -/
theorem c4_empty_series_keyerror (rpow : ℚ → ℚ → ℚ) (asin : String)
    (seasonality_data : List SeasonRow) (inventory : InventoryD)
    (settings : SettingsD) (today : ℤ) (algorithm : String)
    (vine_claims : List VineRow) (now : ℤ) :
    calculate_forecast_18m_plus [] today settings = emptyAlgoResult settings ∧
    calculate_forecast_6_18m [] seasonality_data today settings =
      emptyAlgoResult settings ∧
    calculate_forecast_0_6m_exact rpow [] seasonality_data vine_claims today
      settings = emptyAlgoResult settings ∧
    (generate_full_forecast rpow asin [] seasonality_data inventory settings
      today algorithm vine_claims now).1 = none := by
  refine ⟨rfl, rfl, rfl, ?_⟩
  unfold generate_full_forecast
  dsimp only
  unfold calculate_forecast_18m_plus calculate_forecast_6_18m
    calculate_forecast_0_6m_exact
  rw [if_pos rfl, if_pos rfl, if_pos rfl]
  by_cases h1 : algorithm = "0-6m"
  · simp [h1, emptyAlgoResult, summaryOf]
  · by_cases h2 : algorithm = "6-18m" <;>
      simp [h1, h2, emptyAlgoResult, summaryOf]

/-! ## C6: the orchestrator mutates the caller's settings -/

/-- **C6 counterexample.** `generate_full_forecast` does not leave the
caller's settings mapping unchanged: called with `DEFAULT_SETTINGS` (which
has no `total_inventory` / `fba_available` entries) and inventory
`{total_inventory: 5, fba_available: 3}`, the settings dict after the call
differs from the one passed in (it gained both inventory keys). -/
theorem c6_settings_mutation_counterexample :
    (generate_full_forecast (fun _ _ => 1) "A" [] [] ⟨some 5, some 3⟩
      DEFAULT_SETTINGS 0 "18m+" [] 0).2 ≠ DEFAULT_SETTINGS := by
  with_unfolding_all decide

/-- **C6 (amended).** `generate_full_forecast` mutates exactly the
caller's settings mapping, by writing the two inventory entries into it
(`settings['total_inventory'] = inventory.get('total_inventory', 0)` and
`settings['fba_available'] = inventory.get('fba_available', 0)`); every
other settings entry is unchanged, and no other input is written to (the
algorithm functions are pure; the model threads the only mutated object,
the settings dict, through the call). -/
theorem c6_settings_mutation_amended (rpow : ℚ → ℚ → ℚ) (asin : String)
    (units_sold_data : List UnitsRow) (seasonality_data : List SeasonRow)
    (inventory : InventoryD) (settings : SettingsD) (today : ℤ)
    (algorithm : String) (vine_claims : List VineRow) (now : ℤ) :
    (generate_full_forecast rpow asin units_sold_data seasonality_data
        inventory settings today algorithm vine_claims now).2 =
      { settings with
          total_inventory := some (inventory.total_inventory.getD 0)
          fba_available := some (inventory.fba_available.getD 0) } ∧
    (generate_full_forecast rpow asin units_sold_data seasonality_data
        inventory settings today algorithm vine_claims now).2.amazon_doi_goal =
      settings.amazon_doi_goal ∧
    (generate_full_forecast rpow asin units_sold_data seasonality_data
        inventory settings today algorithm vine_claims now).2.inbound_lead_time =
      settings.inbound_lead_time ∧
    (generate_full_forecast rpow asin units_sold_data seasonality_data
        inventory settings today algorithm vine_claims
        now).2.manufacture_lead_time = settings.manufacture_lead_time ∧
    (generate_full_forecast rpow asin units_sold_data seasonality_data
        inventory settings today algorithm vine_claims now).2.market_adjustment =
      settings.market_adjustment ∧
    (generate_full_forecast rpow asin units_sold_data seasonality_data
        inventory settings today algorithm vine_claims
        now).2.sales_velocity_adjustment = settings.sales_velocity_adjustment ∧
    (generate_full_forecast rpow asin units_sold_data seasonality_data
        inventory settings today algorithm vine_claims now).2.velocity_weight =
      settings.velocity_weight :=
  ⟨rfl, rfl, rfl, rfl, rfl, rfl, rfl⟩

/-! ## C5: determinism -/

/-- **C5 counterexample.** Two calls of `generate_full_forecast` on
bit-identical inputs (including `today`) but at different wall-clock
instants (`datetime.now()` reads 0 and 1) return different output
structures: the `generated_at` field embeds the wall clock, so the
orchestrator's output is not bit-identical across repeated runs. -/
theorem c5_determinism_counterexample :
    generate_full_forecast (fun _ _ => 1) "A" [⟨738886, 0⟩] []
        ⟨some 0, some 0⟩ DEFAULT_SETTINGS 738886 "18m+" [] 0 ≠
      generate_full_forecast (fun _ _ => 1) "A" [⟨738886, 0⟩] []
        ⟨some 0, some 0⟩ DEFAULT_SETTINGS 738886 "18m+" [] 1 := by
  intro h
  have h0 : (generate_full_forecast (fun _ _ => 1) "A" [⟨738886, 0⟩] []
      ⟨some 0, some 0⟩ DEFAULT_SETTINGS 738886 "18m+" [] 0).1.map
        FullResult.generated_at = some 0 := rfl
  have h1 : (generate_full_forecast (fun _ _ => 1) "A" [⟨738886, 0⟩] []
      ⟨some 0, some 0⟩ DEFAULT_SETTINGS 738886 "18m+" [] 1).1.map
        FullResult.generated_at = some 1 := rfl
  have h2 := congrArg (fun p => p.1.map FullResult.generated_at) h
  dsimp only at h2
  rw [h0, h1] at h2
  exact absurd h2 (by decide)

/-- **C5 (amended).** The three algorithm functions are pure functions of
their inputs (they read no clock once `today` is supplied), and
`generate_full_forecast` is deterministic in every output component except
the `generated_at` wall-clock timestamp: for any two `datetime.now()`
readings, the post-call settings dicts coincide and the outputs coincide
after erasing `generated_at`. -/
theorem c5_determinism_amended (rpow : ℚ → ℚ → ℚ) (asin : String)
    (units_sold_data : List UnitsRow) (seasonality_data : List SeasonRow)
    (inventory : InventoryD) (settings : SettingsD) (today : ℤ)
    (algorithm : String) (vine_claims : List VineRow) (now₁ now₂ : ℤ) :
    (generate_full_forecast rpow asin units_sold_data seasonality_data
        inventory settings today algorithm vine_claims now₁).1.map
          eraseGeneratedAt =
      (generate_full_forecast rpow asin units_sold_data seasonality_data
        inventory settings today algorithm vine_claims now₂).1.map
          eraseGeneratedAt ∧
    (generate_full_forecast rpow asin units_sold_data seasonality_data
        inventory settings today algorithm vine_claims now₁).2 =
      (generate_full_forecast rpow asin units_sold_data seasonality_data
        inventory settings today algorithm vine_claims now₂).2 := by
  refine ⟨?_, rfl⟩
  simp only [generate_full_forecast]
  rw [optMapBind, optMapBind]
  apply optBindCongr
  intro lt
  rw [optMapBind, optMapBind]
  apply optBindCongr
  intro s1
  rw [optMapBind, optMapBind]
  apply optBindCongr
  intro s2
  rw [Option.map_map, Option.map_map]
  rfl

/-! ## C2: lead-time additivity and the overlap window -/

/-- **C2.** For each of the three algorithms and any settings, the
`lead_time_days` echoed in the result equals exactly
`amazon_doi_goal + inbound_lead_time + manufacture_lead_time` read from
the settings (with the documented defaults 93/30/7 for missing keys) —
and it is the same value that is passed to
`calculate_weekly_units_needed`, for which a forecast week whose 7-day
span `[week_end-7, week_end]` lies entirely outside
`[today, today+lead_time_days]` always contributes `units_needed = 0`. -/
theorem c2_lead_time_additivity (units_data : List UnitsRow)
    (sd : List SeasonRow) (vc : List VineRow) (rpow : ℚ → ℚ → ℚ)
    (today : ℤ) (s : SettingsD) :
    (units_data ≠ [] →
      (calculate_forecast_18m_plus units_data today s).lead_time_days =
        some (s.amazon_doi_goal.getD 93 + s.inbound_lead_time.getD 30 +
          s.manufacture_lead_time.getD 7) ∧
      (calculate_forecast_6_18m units_data sd today s).lead_time_days =
        some (s.amazon_doi_goal.getD 93 + s.inbound_lead_time.getD 30 +
          s.manufacture_lead_time.getD 7) ∧
      (calculate_forecast_0_6m_exact rpow units_data sd vc today
          s).lead_time_days =
        some (s.amazon_doi_goal.getD 93 + s.inbound_lead_time.getD 30 +
          s.manufacture_lead_time.getD 7)) ∧
    (∀ (forecasts : List ℚ) (week_dates : List ℤ) (t L : ℤ) (i : ℕ),
      i < forecasts.length → i < week_dates.length →
      (week_dates.getD i 0 < t ∨ t + L < week_dates.getD i 0 - 7) →
      (calculate_weekly_units_needed forecasts week_dates t L).getD i 0 = 0) := by
  constructor
  · intro hu
    refine ⟨?_, ?_, ?_⟩
    · simp [calculate_forecast_18m_plus, hu]
    · simp [calculate_forecast_6_18m, hu]
    · simp [calculate_forecast_0_6m_exact, hu]
  · intro forecasts week_dates t L i hif hid hout
    have hz : i < (forecasts.zip week_dates).length := by
      rw [List.length_zip]
      omega
    have hd : week_dates.getD i 0 = week_dates[i] := List.getD_eq_getElem _ _ hid
    rw [hd] at hout
    unfold calculate_weekly_units_needed
    dsimp only
    have hm : i < ((forecasts.zip week_dates).map (fun p =>
        if p.1 = 0 then 0
        else
          if 0 < min (t + L) p.2 - max t (p.2 - 7) then
            p.1 * ((min (t + L) p.2 - max t (p.2 - 7) : ℤ) : ℚ) / 7
          else 0)).length := by
      rw [List.length_map]
      exact hz
    rw [List.getD_eq_getElem _ _ hm, List.getElem_map, List.getElem_zip]
    dsimp only
    split
    · rfl
    · rw [if_neg (by omega)]

/-! ## Extension-fold machinery (for C9 and C10) -/

lemma foldl_fst {α β γ : Type} (f : List α × β → γ → List α × β)
    (g : List α → γ → List α) (h : ∀ a c, (f a c).1 = g a.1 c) :
    ∀ (l : List γ) (acc : List α × β),
      (List.foldl f acc l).1 = List.foldl g acc.1 l := by
  intro l
  induction l with
  | nil => intro acc; rfl
  | cons c cs ih =>
      intro acc
      rw [List.foldl_cons, List.foldl_cons, ih, h]

/-- Specification of the future-extension folds: each iteration `i` either
leaves the accumulator unchanged or appends `base + 7*i` (a date
satisfying `P`); so the result is the accumulator followed by at most
`rng.length` extra dates, each of the stated form, and the result stays
strictly sorted whenever the accumulator was and lay below the appended
range. -/
lemma extFoldSpec (P : ℤ → Prop) (step : ℤ → List ℤ → List ℤ) (base : ℤ)
    (hstep : ∀ fd a, step fd a = a ∨ (step fd a = a ++ [fd] ∧ P fd)) :
    ∀ (rng : List ℕ) (acc : List ℤ),
      ∃ extra : List ℤ,
        List.foldl (fun (a : List ℤ) (i : ℕ) => step (base + 7 * (i : ℤ)) a)
          acc rng = acc ++ extra ∧
        extra.length ≤ rng.length ∧
        (∀ x ∈ extra, P x ∧ ∃ i ∈ rng, x = base + 7 * (i : ℤ)) ∧
        (List.Pairwise (· < ·) rng →
          List.Pairwise (· < ·) acc →
          (∀ x ∈ acc, ∀ i ∈ rng, x < base + 7 * (i : ℤ)) →
          List.Pairwise (· < ·) (acc ++ extra)) := by
  intro rng
  induction rng with
  | nil =>
      intro acc
      exact ⟨[], by simp, by simp, by simp, fun _ h _ => by simpa using h⟩
  | cons r rs ih =>
      intro acc
      rcases hstep (base + 7 * (r : ℤ)) acc with h | ⟨h, hP⟩
      · obtain ⟨extra, he, hlen, hmem, hpw⟩ := ih acc
        refine ⟨extra, ?_, by simpa using Nat.le_succ_of_le hlen, ?_, ?_⟩
        · rw [List.foldl_cons]
          rw [h]
          exact he
        · intro x hx
          obtain ⟨hPx, i, hi, hxe⟩ := hmem x hx
          exact ⟨hPx, i, List.mem_cons_of_mem r hi, hxe⟩
        · intro hrng hacc hbound
          exact hpw (List.Pairwise.of_cons hrng) hacc
            (fun x hx i hi => hbound x hx i (List.mem_cons_of_mem r hi))
      · obtain ⟨extra, he, hlen, hmem, hpw⟩ := ih (acc ++ [base + 7 * (r : ℤ)])
        refine ⟨(base + 7 * (r : ℤ)) :: extra, ?_, by simpa using hlen, ?_, ?_⟩
        · rw [List.foldl_cons]
          rw [h, he, List.append_assoc, List.singleton_append]
        · intro x hx
          rcases List.mem_cons.mp hx with rfl | hxe
          · exact ⟨hP, r, List.mem_cons_self r rs, rfl⟩
          · obtain ⟨hPx, i, hi, hxe'⟩ := hmem x hxe
            exact ⟨hPx, i, List.mem_cons_of_mem r hi, hxe'⟩
        · intro hrng hacc hbound
          have hr_lt : ∀ i ∈ rs, r < i := (List.pairwise_cons.mp hrng).1
          have hacc' : List.Pairwise (· < ·) (acc ++ [base + 7 * (r : ℤ)]) := by
            rw [List.pairwise_append]
            refine ⟨hacc, List.pairwise_singleton _ _, ?_⟩
            intro a ha b hb
            rw [List.mem_singleton.mp hb]
            exact hbound a ha r (List.mem_cons_self r rs)
          have hbound' : ∀ x ∈ acc ++ [base + 7 * (r : ℤ)], ∀ i ∈ rs,
              x < base + 7 * (i : ℤ) := by
            intro x hx i hi
            rcases List.mem_append.mp hx with hxa | hxr
            · exact hbound x hxa i (List.mem_cons_of_mem r hi)
            · rw [List.mem_singleton.mp hxr]
              have : (r : ℤ) < (i : ℤ) := by exact_mod_cast hr_lt i hi
              linarith
          have := hpw (List.Pairwise.of_cons hrng) hacc' hbound'
          rwa [List.append_assoc, List.singleton_append] at this

lemma getLastD_mem_or (l : List ℤ) (d : ℤ) : l = [] ∨ l.getLastD d ∈ l := by
  cases l with
  | nil => exact Or.inl rfl
  | cons a t =>
      right
      rw [List.getLastD_cons]
      exact List.getLastD_mem_cons t a

lemma pairwise_le_getLastD (l : List ℤ) (d : ℤ)
    (hp : List.Pairwise (· < ·) l) : ∀ x ∈ l, x ≤ l.getLastD d := by
  induction l generalizing d with
  | nil => simp
  | cons a t ih =>
      intro x hx
      rw [List.getLastD_cons]
      rcases List.mem_cons.mp hx with rfl | hxt
      · rcases getLastD_mem_or t x with hnil | hmem
        · rw [hnil]
          rfl
        · exact le_of_lt ((List.pairwise_cons.mp hp).1 _ hmem)
      · exact ih a (List.Pairwise.of_cons hp) x hxt

/-- Fold specification specialised to `extend_dates` (the 18m+/6-18m date
extension): on a strictly-sorted date list the extended list is strictly
sorted. -/
lemma pairwise_extend_dates (week_dates : List ℤ) (today : ℤ) (count : ℕ)
    (hp : List.Pairwise (· < ·) week_dates) :
    List.Pairwise (· < ·) (extend_dates week_dates today count) := by
  unfold extend_dates
  dsimp only
  obtain ⟨extra, he, -, -, hpw⟩ := extFoldSpec (fun _ => True)
    (fun fd a => if fd ∈ a then a else a ++ [fd]) (week_dates.getLastD today)
    (fun fd a => by
      by_cases h : fd ∈ a
      · exact Or.inl (if_pos h)
      · exact Or.inr ⟨if_neg h, trivial⟩)
    (List.range' 1 count) week_dates
  rw [he]
  refine hpw (List.pairwise_lt_range' 1 count) hp ?_
  intro x hx i hi
  have hx_last : x ≤ week_dates.getLastD today :=
    pairwise_le_getLastD week_dates today hp x hx
  have hi1 : 1 ≤ i := (List.mem_range'_1.mp hi).1
  have : (1 : ℤ) ≤ (i : ℤ) := by exact_mod_cast hi1
  linarith

/-- Witness for C2: with default settings the echoed lead time is
`93 + 30 + 7 = 130`, and a week ending at day 3 with `today = 100`
(entirely in the past) contributes 0 units needed. -/
theorem c2_lead_time_additivity_witness :
    (calculate_forecast_18m_plus [⟨100, 0⟩] 0 DEFAULT_SETTINGS).lead_time_days =
      some (DEFAULT_SETTINGS.amazon_doi_goal.getD 93 +
        DEFAULT_SETTINGS.inbound_lead_time.getD 30 +
        DEFAULT_SETTINGS.manufacture_lead_time.getD 7) ∧
    (calculate_weekly_units_needed [(1 : ℚ)] [(3 : ℤ)] 100 4).getD 0 0 = 0 :=
  ⟨((c2_lead_time_additivity [⟨100, 0⟩] [] [] (fun _ _ => 1) 0
      DEFAULT_SETTINGS).1 (by decide)).1,
   (c2_lead_time_additivity [] [] [] (fun _ _ => 1) 0 DEFAULT_SETTINGS).2
     [(1 : ℚ)] [(3 : ℤ)] 100 4 0 (by decide) (by decide) (Or.inl (by decide))⟩

/-! ## C9: the 0-6m future extension -/

/-- **C9.** The 0-6m algorithm's future-extension loop (the fold of
`ext_step_0_6m` over `range(1, 60)` used by
`calculate_forecast_0_6m_exact`, whose cap is `twelve_months_out =
today + 365`) extends the dated series by at most 60 additional weekly
dates beyond the last observed week (`last_date + 7*i`, `1 ≤ i ≤ 59`),
and no extended date ever exceeds `today + 365`. -/
theorem c9_extension_0_6m (rpow : ℚ → ℚ → ℚ) (sd : List SeasonRow)
    (F_peak lhs : ℚ) (today last_date : ℤ) (week_dates : List ℤ)
    (H_values : List ℚ) :
    ∃ extra : List ℤ,
      ((List.range' 1 59).foldl
        (ext_step_0_6m rpow sd F_peak lhs (today + 365) last_date)
        (week_dates, H_values)).1 = week_dates ++ extra ∧
      extra.length ≤ 60 ∧
      ∀ x ∈ extra, x ≤ today + 365 ∧
        ∃ i : ℕ, 1 ≤ i ∧ i ≤ 59 ∧ x = last_date + 7 * (i : ℤ) := by
  have hstep : ∀ (fd : ℤ) (a : List ℤ),
      (if fd ∉ a ∧ fd ≤ today + 365 then a ++ [fd] else a) = a ∨
      ((if fd ∉ a ∧ fd ≤ today + 365 then a ++ [fd] else a) = a ++ [fd] ∧
        fd ≤ today + 365) := by
    intro fd a
    by_cases h : fd ∉ a ∧ fd ≤ today + 365
    · exact Or.inr ⟨if_pos h, h.2⟩
    · exact Or.inl (if_neg h)
  obtain ⟨extra, he, hlen, hmem, -⟩ :=
    extFoldSpec (fun x => x ≤ today + 365)
      (fun fd a => if fd ∉ a ∧ fd ≤ today + 365 then a ++ [fd] else a)
      last_date hstep (List.range' 1 59) week_dates
  have hproj :
      ((List.range' 1 59).foldl
        (ext_step_0_6m rpow sd F_peak lhs (today + 365) last_date)
        (week_dates, H_values)).1 =
      List.foldl (fun (a : List ℤ) (i : ℕ) =>
        if (last_date + 7 * (i : ℤ)) ∉ a ∧ last_date + 7 * (i : ℤ) ≤ today + 365
        then a ++ [last_date + 7 * (i : ℤ)] else a) week_dates
        (List.range' 1 59) := by
    apply foldl_fst
    intro a c
    unfold ext_step_0_6m
    by_cases h : (last_date + 7 * (c : ℤ)) ∉ a.1 ∧
        last_date + 7 * (c : ℤ) ≤ today + 365
    · rw [if_pos h, if_pos h]
    · rw [if_neg h, if_neg h]
  refine ⟨extra, ?_, ?_, ?_⟩
  · rw [hproj]
    exact he
  · rw [List.length_range'] at hlen
    omega
  · intro x hx
    obtain ⟨hP, i, hi, hxe⟩ := hmem x hx
    have hi' := List.mem_range'_1.mp hi
    exact ⟨hP, i, hi'.1, by omega, hxe⟩

/-! ## C10: shape of the forecasts output -/

lemma pairwise_fst_zip {β : Type} (l : List ℤ) (l' : List β)
    (hp : List.Pairwise (· < ·) l) :
    List.Pairwise (fun p q : ℤ × β => p.1 < q.1) (l.zip l') := by
  induction l generalizing l' with
  | nil => simp
  | cons a t ih =>
      cases l' with
      | nil => simp
      | cons b t' =>
          rw [List.zip_cons_cons]
          refine List.pairwise_cons.mpr ⟨?_, ih t' (List.Pairwise.of_cons hp)⟩
          rintro ⟨q1, q2⟩ hq
          have hq1 := (List.of_mem_zip hq).1
          exact (List.pairwise_cons.mp hp).1 q1 hq1

lemma forecastsOut_ok (today : ℤ) (dates : List ℤ) (fs ws : List ℚ)
    (hp : List.Pairwise (· < ·) dates) :
    forecastsOk today (forecastsOut today dates fs ws) := by
  unfold forecastsOut forecastsOk
  refine ⟨?_, ?_, ?_⟩
  · rw [List.length_take]
    omega
  · rw [← List.map_take, List.map_map]
    apply List.Pairwise.sublist
      (List.Sublist.map _ (List.take_sublist 52 _))
    apply List.Pairwise.map
      (S := fun a b : ℤ => a < b)
      (R := fun p q : ℤ × ℚ × ℚ => p.1 < q.1)
    · exact fun a b h => h
    · exact List.Pairwise.sublist (List.filter_sublist _)
        (pairwise_fst_zip dates (fs.zip ws) hp)
  · intro p hp'
    have h1 := List.mem_of_mem_take hp'
    obtain ⟨q, hq, rfl⟩ := List.mem_map.mp h1
    have h2 := List.of_mem_filter hq
    exact of_decide_eq_true h2

/-- The 6-18m extension preserves strict date ordering. -/
lemma pairwise_ext_6_18m (sd : List SeasonRow) (F : ℚ) (last : ℤ)
    (week_dates : List ℤ) (I_values : List ℚ)
    (hp : List.Pairwise (· < ·) week_dates)
    (hlast : ∀ x ∈ week_dates, x ≤ last) :
    List.Pairwise (· < ·)
      (((List.range' 1 104).foldl (ext_step_6_18m sd F last)
        (week_dates, I_values)).1) := by
  have hproj :
      (((List.range' 1 104).foldl (ext_step_6_18m sd F last)
        (week_dates, I_values)).1) =
      List.foldl (fun (a : List ℤ) (i : ℕ) =>
        if (last + 7 * (i : ℤ)) ∈ a then a else a ++ [last + 7 * (i : ℤ)])
        week_dates (List.range' 1 104) := by
    apply foldl_fst
    intro a c
    unfold ext_step_6_18m
    by_cases h : (last + 7 * (c : ℤ)) ∈ a.1
    · rw [if_pos h, if_pos h]
    · rw [if_neg h, if_neg h]
  rw [hproj]
  obtain ⟨extra, he, -, -, hpw⟩ := extFoldSpec (fun _ => True)
    (fun fd a => if fd ∈ a then a else a ++ [fd]) last
    (fun fd a => by
      by_cases h : fd ∈ a
      · exact Or.inl (if_pos h)
      · exact Or.inr ⟨if_neg h, trivial⟩)
    (List.range' 1 104) week_dates
  rw [he]
  refine hpw (List.pairwise_lt_range' 1 104) hp ?_
  intro x hx i hi
  have hi1 : 1 ≤ i := (List.mem_range'_1.mp hi).1
  have hi1' : (1 : ℤ) ≤ (i : ℤ) := by exact_mod_cast hi1
  have := hlast x hx
  linarith

/-- The 0-6m extension preserves strict date ordering. -/
lemma pairwise_ext_0_6m (rpow : ℚ → ℚ → ℚ) (sd : List SeasonRow)
    (F_peak lhs : ℚ) (cap last : ℤ) (week_dates : List ℤ)
    (H_values : List ℚ) (hp : List.Pairwise (· < ·) week_dates)
    (hlast : ∀ x ∈ week_dates, x ≤ last) :
    List.Pairwise (· < ·)
      (((List.range' 1 59).foldl (ext_step_0_6m rpow sd F_peak lhs cap last)
        (week_dates, H_values)).1) := by
  have hproj :
      (((List.range' 1 59).foldl (ext_step_0_6m rpow sd F_peak lhs cap last)
        (week_dates, H_values)).1) =
      List.foldl (fun (a : List ℤ) (i : ℕ) =>
        if (last + 7 * (i : ℤ)) ∉ a ∧ last + 7 * (i : ℤ) ≤ cap
        then a ++ [last + 7 * (i : ℤ)] else a)
        week_dates (List.range' 1 59) := by
    apply foldl_fst
    intro a c
    unfold ext_step_0_6m
    by_cases h : (last + 7 * (c : ℤ)) ∉ a.1 ∧ last + 7 * (c : ℤ) ≤ cap
    · rw [if_pos h, if_pos h]
    · rw [if_neg h, if_neg h]
  rw [hproj]
  obtain ⟨extra, he, -, -, hpw⟩ := extFoldSpec (fun _ => True)
    (fun fd a => if fd ∉ a ∧ fd ≤ cap then a ++ [fd] else a) last
    (fun fd a => by
      by_cases h : fd ∉ a ∧ fd ≤ cap
      · exact Or.inr ⟨if_pos h, trivial⟩
      · exact Or.inl (if_neg h))
    (List.range' 1 59) week_dates
  rw [he]
  refine hpw (List.pairwise_lt_range' 1 59) hp ?_
  intro x hx i hi
  have hi1 : 1 ≤ i := (List.mem_range'_1.mp hi).1
  have hi1' : (1 : ℤ) ≤ (i : ℤ) := by exact_mod_cast hi1
  have := hlast x hx
  linarith

/-! ## C7: inventory monotonicity -/

lemma pairwise_snd_zip {α : Type} (l : List α) (l' : List ℤ)
    (hp : List.Pairwise (fun x y : ℤ => x + 7 ≤ y) l') :
    List.Pairwise (fun p q : α × ℤ => p.2 + 7 ≤ q.2) (l.zip l') := by
  induction l generalizing l' with
  | nil => simp
  | cons a t ih =>
      cases l' with
      | nil => simp
      | cons b t' =>
          rw [List.zip_cons_cons]
          refine List.pairwise_cons.mpr ⟨?_, ih t' (List.Pairwise.of_cons hp)⟩
          rintro ⟨q1, q2⟩ hq
          have hq2 := (List.of_mem_zip hq).2
          exact (List.pairwise_cons.mp hp).1 q2 hq2

/-- A runout found by the drawdown loop lies no earlier than 7 days before
the week end of some processed week. -/
lemma doiLoop_runout_lb : ∀ (pairs : List (ℚ × ℤ)) (inv today : ℤ) (c : ℚ)
    (r : ℤ), doiRunoutLoop pairs inv today c = some r →
    ∃ p ∈ pairs, p.2 - 7 ≤ r := by
  intro pairs
  induction pairs with
  | nil =>
      intro inv today c r h
      simp [doiRunoutLoop] at h
  | cons p rest ih =>
      intro inv today c r h
      obtain ⟨f, e⟩ := p
      simp only [doiRunoutLoop] at h
      split_ifs at h with h1 h2 h3
      · obtain ⟨q, hq, hle⟩ := ih inv today c r h
        exact ⟨q, List.mem_cons_of_mem _ hq, hle⟩
      · obtain ⟨q, hq, hle⟩ := ih inv today c r h
        exact ⟨q, List.mem_cons_of_mem _ hq, hle⟩
      · refine ⟨(f, e), List.mem_cons_self _ _, ?_⟩
        have hr : e - 7 + ⌊(max 0 (min 1 (((inv : ℚ) - c) / f))) * 7⌋ = r :=
          Option.some.injEq _ _ ▸ h
        have h0 : (0 : ℤ) ≤ ⌊(max 0 (min 1 (((inv : ℚ) - c) / f))) * 7⌋ := by
          apply Int.floor_nonneg.mpr
          positivity
        omega
      · obtain ⟨q, hq, hle⟩ := ih inv today (c + f) r h
        exact ⟨q, List.mem_cons_of_mem _ hq, hle⟩

/-- Monotonicity of the drawdown loop's runout date in the inventory, for
weeks at least 7 days apart. -/
lemma doiLoop_mono : ∀ (pairs : List (ℚ × ℤ)) (today : ℤ) (a b : ℤ)
    (c : ℚ) (ra rb : ℤ),
    List.Pairwise (fun p q : ℚ × ℤ => p.2 + 7 ≤ q.2) pairs →
    a ≤ b →
    doiRunoutLoop pairs a today c = some ra →
    doiRunoutLoop pairs b today c = some rb →
    ra ≤ rb := by
  intro pairs
  induction pairs with
  | nil =>
      intro today a b c ra rb _ _ ha _
      simp [doiRunoutLoop] at ha
  | cons p rest ih =>
      intro today a b c ra rb hpw hab ha hb
      obtain ⟨f, e⟩ := p
      simp only [doiRunoutLoop] at ha hb
      split_ifs at ha hb with h1 h2 h3 h4 h4
      · exact ih today a b c ra rb (List.Pairwise.of_cons hpw) hab ha hb
      · exact ih today a b c ra rb (List.Pairwise.of_cons hpw) hab ha hb
      · -- both inventories deplete in this week
        have hra : e - 7 + ⌊(max 0 (min 1 (((a : ℚ) - c) / f))) * 7⌋ = ra :=
          Option.some.injEq _ _ ▸ ha
        have hrb : e - 7 + ⌊(max 0 (min 1 (((b : ℚ) - c) / f))) * 7⌋ = rb :=
          Option.some.injEq _ _ ▸ hb
        have hf : (0 : ℚ) < f := lt_of_not_le h2
        have habq : ((a : ℚ) - c) / f ≤ ((b : ℚ) - c) / f := by
          apply div_le_div_of_nonneg_right ?_ (le_of_lt hf)
          have : (a : ℚ) ≤ (b : ℚ) := by exact_mod_cast hab
          linarith
        have hmono :
            ⌊(max 0 (min 1 (((a : ℚ) - c) / f))) * 7⌋ ≤
              ⌊(max 0 (min 1 (((b : ℚ) - c) / f))) * 7⌋ := by
          apply Int.floor_le_floor
          have := min_le_min (le_refl (1 : ℚ)) habq
          have := max_le_max (le_refl (0 : ℚ)) this
          linarith
        omega
      · -- `a` depletes this week, `b` survives into the remaining weeks
        have hra : e - 7 + ⌊(max 0 (min 1 (((a : ℚ) - c) / f))) * 7⌋ = ra :=
          Option.some.injEq _ _ ▸ ha
        have hra_le : ra ≤ e := by
          have hle7 : ⌊(max 0 (min 1 (((a : ℚ) - c) / f))) * 7⌋ ≤ 7 := by
            have h1' : (max 0 (min 1 (((a : ℚ) - c) / f))) * 7 ≤ 7 := by
              have hm : max 0 (min 1 (((a : ℚ) - c) / f)) ≤ 1 := by
                apply max_le (by norm_num)
                exact min_le_left _ _
              linarith
            calc ⌊(max 0 (min 1 (((a : ℚ) - c) / f))) * 7⌋ ≤ ⌊(7 : ℚ)⌋ :=
                  Int.floor_le_floor h1'
              _ = 7 := by norm_num
          omega
        obtain ⟨q, hq, hqr⟩ := doiLoop_runout_lb rest b today (c + f) rb hb
        have hgap : e + 7 ≤ q.2 := (List.pairwise_cons.mp hpw).1 q hq
        omega
      · -- impossible: `b` depletes but the smaller `a` does not
        exfalso
        have : (a : ℚ) ≤ (b : ℚ) := by exact_mod_cast hab
        have := h4
        have := h3
        simp only [not_le] at h3
        linarith
      · exact ih today a b (c + f) ra rb (List.Pairwise.of_cons hpw) hab ha hb

/-- **C7 counterexample.** Holding forecasts `[1, 1]`, week dates
`[7, 700]` and `today = 0` fixed, raising `total_inventory` from 2 to 3
makes `doi_days` drop from 700 to 21: with inventory 2 the drawdown loop
depletes in the second week (runout day 700), while with inventory 3 the
loop never depletes and the average-based fallback
(`today + 7*3/avg`, `avg = 1`) gives day 21.  So `calculate_doi` is not
monotone in the inventory as the claim states. -/
theorem c7_doi_monotonicity_counterexample :
    (2 : ℤ) ≤ 3 ∧
    (calculate_doi [1, 1] [7, 700] 3 0).doi_days <
      (calculate_doi [1, 1] [7, 700] 2 0).doi_days := by
  with_unfolding_all decide

/-- **C7 (amended).** Increasing `total_inventory` while holding the
weekly-units-needed sequence fixed never increases
`calculate_units_to_make`; and `calculate_doi`'s `doi_days` never
decreases when the week dates are spaced at least 7 days apart and both
inventory levels deplete inside the drawdown loop (when the larger
inventory instead falls through to the average-based fallback, `doi_days`
can decrease — see the counterexample). -/
theorem c7_inventory_monotonicity :
    (∀ (w : List ℚ) (a b : ℤ), a ≤ b →
      calculate_units_to_make w b ≤ calculate_units_to_make w a) ∧
    (∀ (forecasts : List ℚ) (week_dates : List ℤ) (today a b ra rb : ℤ),
      a ≤ b →
      List.Pairwise (fun x y : ℤ => x + 7 ≤ y) week_dates →
      doiRunoutLoop (forecasts.zip week_dates) a today 0 = some ra →
      doiRunoutLoop (forecasts.zip week_dates) b today 0 = some rb →
      (calculate_doi forecasts week_dates a today).doi_days ≤
        (calculate_doi forecasts week_dates b today).doi_days) := by
  constructor
  · intro w a b hab
    unfold calculate_units_to_make
    dsimp only
    apply roundHalfEven_mono
    have : (a : ℚ) ≤ (b : ℚ) := by exact_mod_cast hab
    apply max_le_max (le_refl (0 : ℚ))
    linarith
  · intro forecasts week_dates today a b ra rb hab hgap ha hb
    have hfne : forecasts ≠ [] := by
      intro h
      rw [h] at ha
      simp [doiRunoutLoop] at ha
    have hdne : week_dates ≠ [] := by
      intro h
      rw [h, List.zip_nil_right] at ha
      simp [doiRunoutLoop] at ha
    have hrarb : ra ≤ rb :=
      doiLoop_mono (forecasts.zip week_dates) today a b 0 ra rb
        (pairwise_snd_zip forecasts week_dates hgap) hab ha hb
    have hcond : ¬(forecasts = [] ∨ week_dates = []) := by
      rintro (h | h)
      exacts [hfne h, hdne h]
    unfold calculate_doi
    rw [if_neg hcond, if_neg hcond]
    dsimp only
    rw [ha, hb]
    dsimp only
    omega

/-- Witness for C7 (amended): `units_to_make` at inventories 1 ≤ 2, and
`doi_days` for forecasts `[1, 1]`, dates `[7, 14]` where inventory 1
depletes in week 1 (runout 7) and inventory 2 in week 2 (runout 14). -/
theorem c7_inventory_monotonicity_witness :
    ((1 : ℤ) ≤ 2 ∧
      calculate_units_to_make [(5 : ℚ), 5] 2 ≤
        calculate_units_to_make [(5 : ℚ), 5] 1) ∧
    (List.Pairwise (fun x y : ℤ => x + 7 ≤ y) [7, 14] ∧
      doiRunoutLoop ([(1 : ℚ), 1].zip [(7 : ℤ), 14]) 1 0 0 = some 7 ∧
      doiRunoutLoop ([(1 : ℚ), 1].zip [(7 : ℤ), 14]) 2 0 0 = some 14 ∧
      (calculate_doi [1, 1] [7, 14] 1 0).doi_days ≤
        (calculate_doi [1, 1] [7, 14] 2 0).doi_days) :=
  ⟨⟨by decide, c7_inventory_monotonicity.1 [(5 : ℚ), 5] 1 2 (by decide)⟩,
   ⟨by decide, by with_unfolding_all decide, by with_unfolding_all decide,
    c7_inventory_monotonicity.2 [(1 : ℚ), 1] [(7 : ℤ), 14] 0 1 2 7 14
      (by decide) (by decide) (by with_unfolding_all decide)
      (by with_unfolding_all decide)⟩⟩

/-- **C10.** For every algorithm result on non-empty, chronologically
ordered input, the `forecasts` field is a chronologically ordered sequence
of at most 52 `ForecastPoint`s containing future weeks
(`week_end ≥ today`) only. -/
theorem c10_forecasts_shape (units_data : List UnitsRow)
    (sd : List SeasonRow) (vc : List VineRow) (rpow : ℚ → ℚ → ℚ)
    (today : ℤ) (s : SettingsD) (hne : units_data ≠ [])
    (hsorted : List.Pairwise (· < ·) (units_data.map (·.week_end))) :
    forecastsOk today
      (calculate_forecast_18m_plus units_data today s).forecasts ∧
    forecastsOk today
      (calculate_forecast_6_18m units_data sd today s).forecasts ∧
    forecastsOk today
      (calculate_forecast_0_6m_exact rpow units_data sd vc today
        s).forecasts := by
  refine ⟨?_, ?_, ?_⟩
  · unfold calculate_forecast_18m_plus
    rw [if_neg hne]
    dsimp only
    exact forecastsOut_ok _ _ _ _
      (pairwise_extend_dates _ today 104 hsorted)
  · unfold calculate_forecast_6_18m
    rw [if_neg hne]
    dsimp only
    exact forecastsOut_ok _ _ _ _
      (pairwise_ext_6_18m _ _ _ _ _ hsorted
        (pairwise_le_getLastD _ today hsorted))
  · unfold calculate_forecast_0_6m_exact
    rw [if_neg hne]
    dsimp only
    exact forecastsOut_ok _ _ _ _
      (pairwise_ext_0_6m _ _ _ _ _ _ _ _ hsorted
        (pairwise_le_getLastD _ today hsorted))

/-- Witness for C10 at a one-week series. -/
theorem c10_forecasts_shape_witness :
    ([⟨738886, (0 : ℚ)⟩] : List UnitsRow) ≠ [] ∧
    List.Pairwise (· < ·) (([⟨738886, (0 : ℚ)⟩] : List UnitsRow).map
      (·.week_end)) ∧
    (forecastsOk 739000
      (calculate_forecast_18m_plus [⟨738886, 0⟩] 739000
        DEFAULT_SETTINGS).forecasts ∧
    forecastsOk 739000
      (calculate_forecast_6_18m [⟨738886, 0⟩] [] 739000
        DEFAULT_SETTINGS).forecasts ∧
    forecastsOk 739000
      (calculate_forecast_0_6m_exact (fun _ _ => 1) [⟨738886, 0⟩] [] []
        739000 DEFAULT_SETTINGS).forecasts) :=
  ⟨by decide, by decide,
   c10_forecasts_shape [⟨738886, 0⟩] [] [] (fun _ _ => 1) 739000
     DEFAULT_SETTINGS (by decide) (by decide)⟩

